import Mathlib

/-!
Shallow embedding of the Godot↔Breez-Spark binding layer
(`src/rust/breez_godot/src/lib.rs`).

The adapter (`BreezNode`) holds an optional session handle `sdk` behind a
mutex and runs every SDK call to completion on a dedicated runtime.  Since
every method acquires the lock for its whole body and the claims are about
single calls, the embedding models the adapter as a pure state value
`AdapterState` (the optional handle) and each method as a pure function of
that state.  The external Breez SDK is a black-box collaborator: each SDK
entry point used by a method is passed in as an oracle
`Request → Except String Response`, and every method additionally returns
the list of SDK requests it actually issued (`List SdkCall`), so that
"makes no SDK call" and "the issued request carries field X" are provable
statements.  Godot scalar types map as: `GString` → `String`,
`i64` → `Int` (with explicit `% 2^w` helpers where Rust `as` casts
truncate), `Dictionary` → an association list of `Variant`s built in the
same field order as the Rust `dict.set` calls.
-/

/-- `breez_sdk_spark::Network` — only the two variants the binding accepts. -/
inductive Network
  | Mainnet
  | Regtest
deriving DecidableEq

/-- The slice of `breez_sdk_spark`'s config the binding observably touches:
`default_config(network)` plus the `api_key` field it overwrites.  All other
config fields are never read or written by the binding and are omitted. -/
structure Config where
  network : Network
  api_key : Option String
deriving DecidableEq

/-- `default_config(network)` from the SDK, restricted to the observed fields:
a fresh config for the given network with no API key attached yet. -/
def default_config (n : Network) : Config :=
  { network := n, api_key := none }

/-- `breez_sdk_spark::Seed` — the binding only builds the `Mnemonic` variant,
always with `passphrase: None`. -/
inductive Seed
  | Mnemonic (mnemonic : String) (passphrase : Option String)
deriving DecidableEq

structure ConnectRequest where
  config : Config
  seed : Seed
  storage_dir : String
deriving DecidableEq

/-- The live SDK session handle; opaque to the binding, so modelled as a bare
identifier. -/
structure BreezSdk where
  id : Nat
deriving DecidableEq

structure GetInfoRequest where
  ensure_synced : Option Bool
deriving DecidableEq

structure GetInfoResponse where
  balance_sats : Nat
deriving DecidableEq

inductive ReceivePaymentMethod
  | BitcoinAddress
  | Bolt11Invoice (description : String) (amount_sats : Option Nat)
  | SparkAddress
deriving DecidableEq

structure ReceivePaymentRequest where
  payment_method : ReceivePaymentMethod
deriving DecidableEq

structure ReceivePaymentResponse where
  payment_request : String
deriving DecidableEq

structure PrepareSendPaymentRequest where
  payment_request : String
  amount_sats : Option Nat
deriving DecidableEq

/-- Opaque to the binding: it is forwarded verbatim from
`prepare_send_payment`'s result into `SendPaymentRequest`. -/
structure PrepareSendPaymentResponse where
  tag : Nat
deriving DecidableEq

inductive SendPaymentOptions
  | Bolt11Invoice (prefer_spark : Bool) (completion_timeout_secs : Option Nat)
deriving DecidableEq

structure SendPaymentRequest where
  prepare_response : PrepareSendPaymentResponse
  options : Option SendPaymentOptions
deriving DecidableEq

/-- A payment record as the binding reads it.  `status`, `payment_type` and
`method` are SDK enums that the binding immediately renders with
`.to_string()`, so they are modelled as the rendered strings. -/
structure Payment where
  id : String
  amount : Nat
  fees : Nat
  timestamp : Nat
  status : String
  payment_type : String
  method : String
deriving DecidableEq

structure SendPaymentResponse where
  payment : Payment
deriving DecidableEq

structure ListPaymentsRequest where
  offset : Option Nat
  limit : Option Nat
deriving DecidableEq

structure ListPaymentsResponse where
  payments : List Payment
deriving DecidableEq

structure SyncWalletRequest
deriving DecidableEq

structure DepositInfo where
  txid : String
  vout : Nat
  amount_sats : Nat
deriving DecidableEq

structure ListUnclaimedDepositsRequest
deriving DecidableEq

structure ListUnclaimedDepositsResponse where
  deposits : List DepositInfo
deriving DecidableEq

/-- `breez_sdk_spark::Fee` — the binding only ever constructs the
`Fixed { amount }` variant. -/
inductive Fee
  | Fixed (amount : Nat)
deriving DecidableEq

structure ClaimDepositRequest where
  txid : String
  vout : Nat
  max_fee : Option Fee
deriving DecidableEq

structure ClaimDepositResponse where
  payment : Payment
deriving DecidableEq

/-- Trace element: one SDK request actually issued by an adapter method. -/
inductive SdkCall
  | connect (req : ConnectRequest)
  | getInfo (req : GetInfoRequest)
  | receivePayment (req : ReceivePaymentRequest)
  | prepareSendPayment (req : PrepareSendPaymentRequest)
  | sendPayment (req : SendPaymentRequest)
  | syncWallet (req : SyncWalletRequest)
  | listPayments (req : ListPaymentsRequest)
  | listUnclaimedDeposits (req : ListUnclaimedDepositsRequest)
  | claimDeposit (req : ClaimDepositRequest)
deriving DecidableEq

/-- Godot `Variant` restricted to the kinds the binding stores in
dictionaries. -/
inductive Variant
  | bool (b : Bool)
  | int (i : Int)
  | str (s : String)
deriving DecidableEq

/-- Godot `Dictionary`, as the association list the binding builds with
successive `dict.set` calls (in source order, keys all distinct). -/
abbrev Dictionary := List (String × Variant)

/-- The `BreezNode` state the claims are about: the mutex-guarded optional
session handle.  The runtime has no observable state. -/
structure AdapterState where
  sdk : Option BreezSdk
deriving DecidableEq

/-- Rust `u64 → i64` `as`-cast: two's-complement reinterpretation. -/
def u64_to_i64 (n : Nat) : Int :=
  let m : Nat := n % 2 ^ 64
  if m < 2 ^ 63 then (m : Int) else (m : Int) - 2 ^ 64

/-- Rust `i64 → u64` `as`-cast: truncation to the low 64 bits. -/
def i64_as_u64 (i : Int) : Nat :=
  (i.emod (2 ^ 64)).toNat

/-- Rust `i64 → u32` `as`-cast: truncation to the low 32 bits. -/
def i64_as_u32 (i : Int) : Nat :=
  (i.emod (2 ^ 32)).toNat

/-- The `as u32` cast is exact on values already in `u32` range. -/
theorem i64_as_u32_exact (t : Int) (h1 : 0 ≤ t) (h2 : t < 2 ^ 32) :
    (i64_as_u32 t : Int) = t := by
  unfold i64_as_u32
  have hp : (2 : Int) ^ 32 = 4294967296 := by norm_num
  rw [hp] at h2 ⊢
  show ((t % 4294967296).toNat : Int) = t
  omega

/-- The `as u64` cast is exact on values already in `u64` range; in
particular on every nonnegative i64 value. -/
theorem i64_as_u64_exact (t : Int) (h1 : 0 ≤ t) (h2 : t < 2 ^ 64) :
    (i64_as_u64 t : Int) = t := by
  unfold i64_as_u64
  have hp : (2 : Int) ^ 64 = 18446744073709551616 := by norm_num
  rw [hp] at h2 ⊢
  show ((t % 18446744073709551616).toNat : Int) = t
  omega

/-- The `match network_str.as_str()` in `connect_sdk`. -/
def networkOf (s : String) : Option Network :=
  if s = "mainnet" then some Network.Mainnet
  else if s = "regtest" then some Network.Regtest
  else none

/-- `connect_sdk`: validate the network name, build the config and seed, and
attempt the SDK `connect`; store the handle only on success.  Returns the
Godot-visible `bool`, the post-state, and the issued SDK calls. -/
def connect_sdk (st : AdapterState)
    (mnemonic api_key network storage_dir : String)
    (sdkConnect : ConnectRequest → Except String BreezSdk) :
    Bool × AdapterState × List SdkCall :=
  let seed := Seed.Mnemonic mnemonic none
  match networkOf network with
  | none => (false, st, [])
  | some network_type =>
      let config := { default_config network_type with api_key := some api_key }
      let req : ConnectRequest :=
        { config := config, seed := seed, storage_dir := storage_dir }
      match sdkConnect req with
      | Except.ok sdk => (true, { st with sdk := some sdk }, [SdkCall.connect req])
      | Except.error _ => (false, st, [SdkCall.connect req])

/-- `get_balance`: 0 when no session; on success the balance cast `as i64`;
on SDK error the error is swallowed into 0. -/
def get_balance (st : AdapterState)
    (sdkGetInfo : GetInfoRequest → Except String GetInfoResponse) :
    Int × List SdkCall :=
  match st.sdk with
  | some _ =>
      let req : GetInfoRequest := { ensure_synced := some true }
      match sdkGetInfo req with
      | Except.ok info => (u64_to_i64 info.balance_sats, [SdkCall.getInfo req])
      | Except.error _ => (0, [SdkCall.getInfo req])
  | none => (0, [])

/-- `get_bitcoin_address`: empty string when no session or on SDK error. -/
def get_bitcoin_address (st : AdapterState)
    (sdkReceive : ReceivePaymentRequest → Except String ReceivePaymentResponse) :
    String × List SdkCall :=
  match st.sdk with
  | some _ =>
      let req : ReceivePaymentRequest :=
        { payment_method := ReceivePaymentMethod.BitcoinAddress }
      match sdkReceive req with
      | Except.ok response => (response.payment_request, [SdkCall.receivePayment req])
      | Except.error _ => ("", [SdkCall.receivePayment req])
  | none => ("", [])

/-- `create_invoice`: `amount_sats > 0` is passed through `as u64`, otherwise
the request carries no amount; empty string when no session or on SDK error. -/
def create_invoice (st : AdapterState) (amount_sats : Int) (description : String)
    (sdkReceive : ReceivePaymentRequest → Except String ReceivePaymentResponse) :
    String × List SdkCall :=
  match st.sdk with
  | some _ =>
      let amount : Option Nat :=
        if amount_sats > 0 then some (i64_as_u64 amount_sats) else none
      let req : ReceivePaymentRequest :=
        { payment_method := ReceivePaymentMethod.Bolt11Invoice description amount }
      match sdkReceive req with
      | Except.ok response => (response.payment_request, [SdkCall.receivePayment req])
      | Except.error _ => ("", [SdkCall.receivePayment req])
  | none => ("", [])

/-- The `{success=false, error}` dictionary the binding builds on every
failure path of `pay_invoice` / `claim_deposit`. -/
def failDict (e : String) : Dictionary :=
  [("success", Variant.bool false), ("error", Variant.str e)]

/-- `pay_invoice`: prepare (always with `amount_sats: None`), then send with
options iff `timeout_secs > 0` (`prefer_spark: false`, timeout `as u32`). -/
def pay_invoice (st : AdapterState) (bolt11 : String) (timeout_secs : Int)
    (sdkPrepare : PrepareSendPaymentRequest → Except String PrepareSendPaymentResponse)
    (sdkSend : SendPaymentRequest → Except String SendPaymentResponse) :
    Dictionary × List SdkCall :=
  match st.sdk with
  | some _ =>
      let prepReq : PrepareSendPaymentRequest :=
        { payment_request := bolt11, amount_sats := none }
      match sdkPrepare prepReq with
      | Except.error e =>
          (failDict ("Failed to prepare payment: " ++ e),
           [SdkCall.prepareSendPayment prepReq])
      | Except.ok prepare_response =>
          let options : Option SendPaymentOptions :=
            if timeout_secs > 0 then
              some (SendPaymentOptions.Bolt11Invoice false
                (some (i64_as_u32 timeout_secs)))
            else
              none
          let sendReq : SendPaymentRequest :=
            { prepare_response := prepare_response, options := options }
          match sdkSend sendReq with
          | Except.ok response =>
              ([("success", Variant.bool true),
                ("payment_id", Variant.str response.payment.id),
                ("amount", Variant.int (u64_to_i64 response.payment.amount))],
               [SdkCall.prepareSendPayment prepReq, SdkCall.sendPayment sendReq])
          | Except.error e =>
              (failDict ("Payment failed: " ++ e),
               [SdkCall.prepareSendPayment prepReq, SdkCall.sendPayment sendReq])
  | none => (failDict "SDK not initialized", [])

/-- `get_spark_address`: same shape as `get_bitcoin_address` with the
`SparkAddress` method. -/
def get_spark_address (st : AdapterState)
    (sdkReceive : ReceivePaymentRequest → Except String ReceivePaymentResponse) :
    String × List SdkCall :=
  match st.sdk with
  | some _ =>
      let req : ReceivePaymentRequest :=
        { payment_method := ReceivePaymentMethod.SparkAddress }
      match sdkReceive req with
      | Except.ok response => (response.payment_request, [SdkCall.receivePayment req])
      | Except.error _ => ("", [SdkCall.receivePayment req])
  | none => ("", [])

/-- `is_sdk_connected`: pure presence check of the handle. -/
def is_sdk_connected (st : AdapterState) : Bool :=
  st.sdk.isSome

/-- `disconnect_breez`: clear the handle if present (printing one diagnostic
line), otherwise do nothing and print nothing.  Returns the post-state and
the diagnostic lines printed. -/
def disconnect_breez (st : AdapterState) : AdapterState × List String :=
  match st.sdk with
  | some _ => ({ st with sdk := none }, ["Disconnected from Breez SDK"])
  | none => (st, [])

/-- `sync_wallet`: true on success, false when no session or on SDK error. -/
def sync_wallet (st : AdapterState)
    (sdkSync : SyncWalletRequest → Except String Unit) :
    Bool × List SdkCall :=
  match st.sdk with
  | some _ =>
      let req : SyncWalletRequest := {}
      match sdkSync req with
      | Except.ok _ => (true, [SdkCall.syncWallet req])
      | Except.error _ => (false, [SdkCall.syncWallet req])
  | none => (false, [])

/-- One payment rendered into a Godot dictionary, fields in `dict.set`
order. -/
def paymentDict (p : Payment) : Dictionary :=
  [("id", Variant.str p.id),
   ("amount", Variant.int (u64_to_i64 p.amount)),
   ("fees", Variant.int (u64_to_i64 p.fees)),
   ("timestamp", Variant.int (u64_to_i64 p.timestamp)),
   ("status", Variant.str p.status),
   ("payment_type", Variant.str p.payment_type),
   ("method", Variant.str p.method)]

/-- `list_payments`: `offset`/`limit` each become `Some (· as u32)` when
positive and `None` otherwise; empty array when no session or on SDK error. -/
def list_payments (st : AdapterState) (offset limit : Int)
    (sdkList : ListPaymentsRequest → Except String ListPaymentsResponse) :
    List Dictionary × List SdkCall :=
  match st.sdk with
  | some _ =>
      let req : ListPaymentsRequest :=
        { offset := if offset > 0 then some (i64_as_u32 offset) else none,
          limit := if limit > 0 then some (i64_as_u32 limit) else none }
      match sdkList req with
      | Except.ok response => (response.payments.map paymentDict, [SdkCall.listPayments req])
      | Except.error _ => ([], [SdkCall.listPayments req])
  | none => ([], [])

/-- One unclaimed deposit rendered into a Godot dictionary.  `vout` is a
`u32` stored directly (lossless into Godot's `i64`). -/
def depositDict (d : DepositInfo) : Dictionary :=
  [("txid", Variant.str d.txid),
   ("vout", Variant.int (d.vout : Int)),
   ("amount_sats", Variant.int (u64_to_i64 d.amount_sats))]

/-- `list_unclaimed_deposits`: empty array when no session or on SDK error. -/
def list_unclaimed_deposits (st : AdapterState)
    (sdkList : ListUnclaimedDepositsRequest → Except String ListUnclaimedDepositsResponse) :
    List Dictionary × List SdkCall :=
  match st.sdk with
  | some _ =>
      let req : ListUnclaimedDepositsRequest := {}
      match sdkList req with
      | Except.ok response =>
          (response.deposits.map depositDict, [SdkCall.listUnclaimedDeposits req])
      | Except.error _ => ([], [SdkCall.listUnclaimedDeposits req])
  | none => ([], [])

/-- `claim_deposit`: `max_fee_sats > 0` becomes a `Fee::Fixed` cap `as u64`,
otherwise no cap; `vout` is cast `as u32` unconditionally. -/
def claim_deposit (st : AdapterState) (txid : String) (vout max_fee_sats : Int)
    (sdkClaim : ClaimDepositRequest → Except String ClaimDepositResponse) :
    Dictionary × List SdkCall :=
  match st.sdk with
  | some _ =>
      let max_fee : Option Fee :=
        if max_fee_sats > 0 then some (Fee.Fixed (i64_as_u64 max_fee_sats)) else none
      let req : ClaimDepositRequest :=
        { txid := txid, vout := i64_as_u32 vout, max_fee := max_fee }
      match sdkClaim req with
      | Except.ok response =>
          ([("success", Variant.bool true),
            ("payment_id", Variant.str response.payment.id)],
           [SdkCall.claimDeposit req])
      | Except.error e =>
          (failDict ("Failed to claim deposit: " ++ e), [SdkCall.claimDeposit req])
  | none => (failDict "SDK not initialized", [])

/-!  Theorems settling the claims.  -/

/-- C1: for every mnemonic, api_key, storage_dir, prior state and SDK
oracle, `connect_sdk` with a network string other than "mainnet" or
"regtest" returns false, issues no SDK call at all (fails before any
network I/O), and leaves the session-handle state exactly as it was, so no
session handle is ever stored. -/
theorem connect_sdk_invalid_network (st : AdapterState)
    (mnemonic api_key network storage_dir : String)
    (sdkConnect : ConnectRequest → Except String BreezSdk)
    (h1 : network ≠ "mainnet") (h2 : network ≠ "regtest") :
    connect_sdk st mnemonic api_key network storage_dir sdkConnect
      = (false, st, []) := by
  simp [connect_sdk, networkOf, h1, h2]

/-- Witness for C1 at network = "invalid", with a session present and an
oracle that would succeed: the call still returns false, keeps the old
handle, and makes no SDK call. -/
theorem connect_sdk_invalid_network_witness :
    connect_sdk ⟨some ⟨3⟩⟩ "abandon" "key" "invalid" "/tmp/w"
        (fun _ => Except.ok ⟨7⟩)
      = (false, ⟨some ⟨3⟩⟩, []) :=
  connect_sdk_invalid_network ⟨some ⟨3⟩⟩ "abandon" "key" "invalid" "/tmp/w"
    (fun _ => Except.ok ⟨7⟩) (by decide) (by decide)

/-- C8: `disconnect_breez` is idempotent.  With no session present it
leaves the state unchanged and prints no diagnostic; after any first call,
a second call prints no diagnostic, and `is_sdk_connected` is false after
each of the two calls. -/
theorem disconnect_breez_idempotent (st : AdapterState) :
    (st.sdk = none → disconnect_breez st = (st, []))
    ∧ (disconnect_breez (disconnect_breez st).1).2 = []
    ∧ is_sdk_connected (disconnect_breez st).1 = false
    ∧ is_sdk_connected (disconnect_breez (disconnect_breez st).1).1 = false := by
  obtain ⟨_ | h⟩ := st <;>
    exact ⟨fun hn => by simp_all [disconnect_breez], rfl, rfl, rfl⟩

/-- Witness for C8 on the disconnected state. -/
theorem disconnect_breez_idempotent_witness :
    disconnect_breez ⟨none⟩ = (⟨none⟩, [])
    ∧ (disconnect_breez (disconnect_breez ⟨none⟩).1).2 = []
    ∧ is_sdk_connected (disconnect_breez ⟨none⟩).1 = false :=
  ⟨(disconnect_breez_idempotent ⟨none⟩).1 rfl,
   (disconnect_breez_idempotent ⟨none⟩).2.1,
   (disconnect_breez_idempotent ⟨none⟩).2.2.1⟩

/-- C9: whenever `connect_sdk` returns false (invalid network name or SDK
connection error), the post-state equals the prior state — no new handle
is stored, a previously present session is still present, and
`is_sdk_connected` is unchanged. -/
theorem connect_sdk_failure_preserves_state (st : AdapterState)
    (mnemonic api_key network storage_dir : String)
    (sdkConnect : ConnectRequest → Except String BreezSdk)
    (hfail : (connect_sdk st mnemonic api_key network storage_dir sdkConnect).1
      = false) :
    (connect_sdk st mnemonic api_key network storage_dir sdkConnect).2.1 = st
    ∧ is_sdk_connected
        (connect_sdk st mnemonic api_key network storage_dir sdkConnect).2.1
      = is_sdk_connected st := by
  unfold connect_sdk at *
  cases hn : networkOf network with
  | none => simp [hn] at hfail ⊢
  | some nt =>
      simp only [hn] at hfail ⊢
      cases hc : sdkConnect
          { config := { default_config nt with api_key := some api_key },
            seed := Seed.Mnemonic mnemonic none,
            storage_dir := storage_dir } with
      | ok sdk => simp [hc] at hfail
      | error e => simp [hc]

/-- Witness for C9: a failed connect (SDK error) with a session already
present keeps that session and leaves `is_sdk_connected` true. -/
theorem connect_sdk_failure_preserves_state_witness :
    (connect_sdk ⟨some ⟨5⟩⟩ "abandon" "key" "mainnet" "/tmp/w"
        (fun _ => Except.error "refused")).2.1 = ⟨some ⟨5⟩⟩
    ∧ is_sdk_connected
        (connect_sdk ⟨some ⟨5⟩⟩ "abandon" "key" "mainnet" "/tmp/w"
          (fun _ => Except.error "refused")).2.1
      = is_sdk_connected ⟨some ⟨5⟩⟩ :=
  connect_sdk_failure_preserves_state ⟨some ⟨5⟩⟩ "abandon" "key" "mainnet"
    "/tmp/w" (fun _ => Except.error "refused") (by decide)

/-- C2: every session-dependent operation called with no session handle
present returns its documented empty sentinel (0, empty string, false,
empty array, or a `{success=false, error}` record) and issues no SDK call
(empty trace); and an SDK-call failure in any of these operations is
absorbed into the same sentinel return value — every adapter method is a
total function into a normal return value, so no fault crosses the engine
boundary. -/
theorem sentinel_returns :
    (∀ f, get_balance ⟨none⟩ f = (0, []))
    ∧ (∀ f, get_bitcoin_address ⟨none⟩ f = ("", []))
    ∧ (∀ a d f, create_invoice ⟨none⟩ a d f = ("", []))
    ∧ (∀ b t fp fs, pay_invoice ⟨none⟩ b t fp fs
        = (failDict "SDK not initialized", []))
    ∧ (∀ f, get_spark_address ⟨none⟩ f = ("", []))
    ∧ (∀ f, sync_wallet ⟨none⟩ f = (false, []))
    ∧ (∀ o l f, list_payments ⟨none⟩ o l f = ([], []))
    ∧ (∀ f, list_unclaimed_deposits ⟨none⟩ f = ([], []))
    ∧ (∀ t v m f, claim_deposit ⟨none⟩ t v m f
        = (failDict "SDK not initialized", []))
    ∧ (∀ h e, (get_balance ⟨some h⟩ (fun _ => Except.error e)).1 = 0)
    ∧ (∀ h e, (get_bitcoin_address ⟨some h⟩ (fun _ => Except.error e)).1 = "")
    ∧ (∀ h a d e, (create_invoice ⟨some h⟩ a d (fun _ => Except.error e)).1 = "")
    ∧ (∀ h b t e fs, (pay_invoice ⟨some h⟩ b t (fun _ => Except.error e) fs).1
        = failDict ("Failed to prepare payment: " ++ e))
    ∧ (∀ h b t p e,
        (pay_invoice ⟨some h⟩ b t (fun _ => Except.ok p)
          (fun _ => Except.error e)).1
        = failDict ("Payment failed: " ++ e))
    ∧ (∀ h e, (get_spark_address ⟨some h⟩ (fun _ => Except.error e)).1 = "")
    ∧ (∀ h e, (sync_wallet ⟨some h⟩ (fun _ => Except.error e)).1 = false)
    ∧ (∀ h o l e, (list_payments ⟨some h⟩ o l (fun _ => Except.error e)).1 = [])
    ∧ (∀ h e, (list_unclaimed_deposits ⟨some h⟩ (fun _ => Except.error e)).1 = [])
    ∧ (∀ h t v m e, (claim_deposit ⟨some h⟩ t v m (fun _ => Except.error e)).1
        = failDict ("Failed to claim deposit: " ++ e)) :=
  ⟨fun _ => rfl, fun _ => rfl, fun _ _ _ => rfl, fun _ _ _ _ => rfl,
   fun _ => rfl, fun _ => rfl, fun _ _ _ => rfl, fun _ => rfl,
   fun _ _ _ _ => rfl, fun _ _ => rfl, fun _ _ => rfl, fun _ _ _ _ => rfl,
   fun _ _ _ _ _ => rfl, fun _ _ _ _ _ => rfl, fun _ _ => rfl, fun _ _ => rfl,
   fun _ _ _ _ => rfl, fun _ _ => rfl, fun _ _ _ _ _ => rfl⟩

/-- C3: `pay_invoice` is two-phase.  The prepare request always carries the
given bolt11 string with `amount_sats = none`; if prepare fails the result
is `{success=false, error}` with the prepare diagnostic and `send` is never
called (the trace stops at the prepare call); if send succeeds the result
is `{success=true, payment_id, amount}` with the payment's id and amount;
if send fails the result is `{success=false, error}` with the send
diagnostic. -/
theorem pay_invoice_two_phase :
    (∀ (h : BreezSdk) b t e fs,
      pay_invoice ⟨some h⟩ b t (fun _ => Except.error e) fs
        = (failDict ("Failed to prepare payment: " ++ e),
           [SdkCall.prepareSendPayment ⟨b, none⟩]))
    ∧ (∀ (h : BreezSdk) b t p (r : SendPaymentResponse),
      pay_invoice ⟨some h⟩ b t (fun _ => Except.ok p) (fun _ => Except.ok r)
        = ([("success", Variant.bool true),
            ("payment_id", Variant.str r.payment.id),
            ("amount", Variant.int (u64_to_i64 r.payment.amount))],
           [SdkCall.prepareSendPayment ⟨b, none⟩,
            SdkCall.sendPayment ⟨p,
              if t > 0 then
                some (SendPaymentOptions.Bolt11Invoice false
                  (some (i64_as_u32 t)))
              else none⟩]))
    ∧ (∀ (h : BreezSdk) b t p e,
      (pay_invoice ⟨some h⟩ b t (fun _ => Except.ok p)
          (fun _ => Except.error e)).1
        = failDict ("Payment failed: " ++ e)) :=
  ⟨fun _ _ _ _ _ => rfl, fun _ _ _ _ _ => rfl, fun _ _ _ _ _ => rfl⟩

/-- Counterexample to C4 as stated: at `timeout_secs = 2^32` (a valid i64
input) the Rust `as u32` cast truncates, so the send request carries a
completion timeout of 0 seconds, not "exactly timeout_secs" = 4294967296
seconds. -/
theorem pay_invoice_timeout_truncates :
    (pay_invoice ⟨some ⟨0⟩⟩ "lnbc1" 4294967296 (fun _ => Except.ok ⟨0⟩)
        (fun _ => Except.ok ⟨⟨"p1", 5, 0, 0, "s", "t", "m"⟩⟩)).2
      = [SdkCall.prepareSendPayment ⟨"lnbc1", none⟩,
         SdkCall.sendPayment ⟨⟨0⟩,
           some (SendPaymentOptions.Bolt11Invoice false (some 0))⟩]
    ∧ (0 : Nat) ≠ 4294967296 :=
  ⟨by decide, by decide⟩

/-- C4 (amended): for every bolt11 input, if `timeout_secs ≤ 0` the
prepared payment is sent with `options = none`; if `timeout_secs > 0` the
send request carries options with `prefer_spark = false` and a completion
timeout of `timeout_secs` truncated `as u32` (i.e. mod 2^32), which equals
`timeout_secs` exactly whenever `timeout_secs < 2^32`. -/
theorem pay_invoice_options (h : BreezSdk) (b : String) (t : Int)
    (p : PrepareSendPaymentResponse) (r : SendPaymentResponse) :
    (pay_invoice ⟨some h⟩ b t (fun _ => Except.ok p) (fun _ => Except.ok r)).2
      = [SdkCall.prepareSendPayment ⟨b, none⟩,
         SdkCall.sendPayment ⟨p,
           if t > 0 then
             some (SendPaymentOptions.Bolt11Invoice false (some (i64_as_u32 t)))
           else none⟩]
    ∧ (0 < t → t < 2 ^ 32 → (i64_as_u32 t : Int) = t) :=
  ⟨rfl, fun h1 h2 => i64_as_u32_exact t (le_of_lt h1) h2⟩

/-- Witness for C4 (amended) at `timeout_secs = 30`: the send request
carries a 30-second completion timeout and `prefer_spark = false`. -/
theorem pay_invoice_options_witness :
    ((pay_invoice ⟨some ⟨0⟩⟩ "lnbc1" 30 (fun _ => Except.ok ⟨0⟩)
        (fun _ => Except.ok ⟨⟨"p1", 5, 0, 0, "s", "t", "m"⟩⟩)).2
      = [SdkCall.prepareSendPayment ⟨"lnbc1", none⟩,
         SdkCall.sendPayment ⟨⟨0⟩,
           some (SendPaymentOptions.Bolt11Invoice false (some 30))⟩])
    ∧ (i64_as_u32 30 : Int) = 30 := by
  have h := pay_invoice_options ⟨0⟩ "lnbc1" 30 ⟨0⟩ ⟨⟨"p1", 5, 0, 0, "s", "t", "m"⟩⟩
  exact ⟨h.1.trans (by decide), h.2 (by decide) (by decide)⟩

/-- C5: for every description and every i64 `amount_sats`, `create_invoice`
issues a receive-payment request whose method is a Bolt11 invoice carrying
no amount when `amount_sats ≤ 0`, and carrying exactly `amount_sats` when
`amount_sats > 0` (the `as u64` cast is exact on positive i64 values). -/
theorem create_invoice_amount (h : BreezSdk) (a : Int) (d : String)
    (f : ReceivePaymentRequest → Except String ReceivePaymentResponse)
    (ha : a < 2 ^ 63) :
    (create_invoice ⟨some h⟩ a d f).2
      = [SdkCall.receivePayment ⟨ReceivePaymentMethod.Bolt11Invoice d
          (if a > 0 then some (i64_as_u64 a) else none)⟩]
    ∧ (0 < a → (i64_as_u64 a : Int) = a) := by
  constructor
  · cases hf : f ⟨ReceivePaymentMethod.Bolt11Invoice d (if a > 0 then some (i64_as_u64 a) else none)⟩ <;> simp [create_invoice, hf]
  · exact fun h0 => i64_as_u64_exact a (le_of_lt h0) (lt_trans ha (by norm_num))

/-- Witness for C5 at `amount_sats = 1000`: the request carries exactly
1000. -/
theorem create_invoice_amount_witness :
    ((create_invoice ⟨some ⟨0⟩⟩ 1000 "coffee"
        (fun _ => Except.ok ⟨"lnaddr"⟩)).2
      = [SdkCall.receivePayment
          ⟨ReceivePaymentMethod.Bolt11Invoice "coffee" (some 1000)⟩])
    ∧ (i64_as_u64 1000 : Int) = 1000 := by
  have h := create_invoice_amount ⟨0⟩ 1000 "coffee"
    (fun _ => Except.ok ⟨"lnaddr"⟩) (by decide)
  exact ⟨h.1.trans (by decide), h.2 (by decide)⟩

/-- Counterexample to C6 as stated: at `offset = 2^32` (a valid i64 input,
positive) the Rust `as u32` cast truncates, so the request carries
`offset = some 0` instead of passing the positive value 4294967296
through. -/
theorem list_payments_offset_truncates :
    (list_payments ⟨some ⟨0⟩⟩ 4294967296 1 (fun _ => Except.ok ⟨[]⟩)).2
      = [SdkCall.listPayments ⟨some 0, some 1⟩]
    ∧ some (0 : Nat) ≠ some (4294967296 : Nat) :=
  ⟨by decide, by decide⟩

/-- C6 (amended): `list_payments` translates `offset ≤ 0` and `limit ≤ 0`
each independently to no bound (`none`), and passes positive values
through truncated `as u32` (mod 2^32, exact for values below 2^32); in
particular `list_payments 0 0` and `list_payments (-5) (-5)` produce
identical SDK requests and identical results. -/
theorem list_payments_paging (h : BreezSdk) (o l : Int)
    (f : ListPaymentsRequest → Except String ListPaymentsResponse) :
    (list_payments ⟨some h⟩ o l f).2
      = [SdkCall.listPayments
          ⟨if o > 0 then some (i64_as_u32 o) else none,
           if l > 0 then some (i64_as_u32 l) else none⟩]
    ∧ (∀ g, list_payments ⟨some h⟩ 0 0 g = list_payments ⟨some h⟩ (-5) (-5) g) := by
  constructor
  · cases hf : f ⟨if o > 0 then some (i64_as_u32 o) else none, if l > 0 then some (i64_as_u32 l) else none⟩ <;> simp [list_payments, hf]
  · intro g
    rfl

/-- C7: for every txid and vout, `claim_deposit` issues a claim request
with no fee cap when `max_fee_sats ≤ 0`, and with a fixed fee cap of
exactly `max_fee_sats` when `max_fee_sats > 0` (the `as u64` cast is exact
on positive i64 values). -/
theorem claim_deposit_fee_cap (h : BreezSdk) (txid : String) (v m : Int)
    (f : ClaimDepositRequest → Except String ClaimDepositResponse)
    (hm : m < 2 ^ 63) :
    (claim_deposit ⟨some h⟩ txid v m f).2
      = [SdkCall.claimDeposit
          ⟨txid, i64_as_u32 v,
           if m > 0 then some (Fee.Fixed (i64_as_u64 m)) else none⟩]
    ∧ (0 < m → (i64_as_u64 m : Int) = m) := by
  constructor
  · cases hf : f ⟨txid, i64_as_u32 v, if m > 0 then some (Fee.Fixed (i64_as_u64 m)) else none⟩ <;> simp [claim_deposit, hf]
  · exact fun h0 => i64_as_u64_exact m (le_of_lt h0) (lt_trans hm (by norm_num))

/-- Witness for C7 at `max_fee_sats = 500` (fixed cap of exactly 500). -/
theorem claim_deposit_fee_cap_witness :
    ((claim_deposit ⟨some ⟨0⟩⟩ "tx" 0 500
        (fun _ => Except.ok ⟨⟨"pid", 0, 0, 0, "a", "b", "c"⟩⟩)).2
      = [SdkCall.claimDeposit ⟨"tx", 0, some (Fee.Fixed 500)⟩])
    ∧ (i64_as_u64 500 : Int) = 500 := by
  have h := claim_deposit_fee_cap ⟨0⟩ "tx" 0 500
    (fun _ => Except.ok ⟨⟨"pid", 0, 0, 0, "a", "b", "c"⟩⟩) (by decide)
  exact ⟨h.1.trans (by decide), h.2 (by decide)⟩

/-- C10: `claim_deposit` performs no range validation on vout.  For every
vout outside [0, 2^32), including every negative vout, the request carries
`vout.emod 2^32` (the i64 truncated to its low 32 bits, two's-complement)
and the call proceeds to the SDK and — when the SDK succeeds — returns a
success record, not a failure record. -/
theorem claim_deposit_vout_truncation (h : BreezSdk) (txid : String)
    (v m : Int) (resp : ClaimDepositResponse)
    (_hv : v < 0 ∨ 2 ^ 32 ≤ v) :
    (claim_deposit ⟨some h⟩ txid v m (fun _ => Except.ok resp)).2
      = [SdkCall.claimDeposit
          ⟨txid, (v.emod (2 ^ 32)).toNat,
           if m > 0 then some (Fee.Fixed (i64_as_u64 m)) else none⟩]
    ∧ (claim_deposit ⟨some h⟩ txid v m (fun _ => Except.ok resp)).1
      = [("success", Variant.bool true),
         ("payment_id", Variant.str resp.payment.id)] :=
  ⟨rfl, rfl⟩

/-- Witness for C10 at `vout = -1`: the request carries 4294967295 and the
call returns a success record. -/
theorem claim_deposit_vout_truncation_witness :
    ((claim_deposit ⟨some ⟨0⟩⟩ "tx" (-1) 0
        (fun _ => Except.ok ⟨⟨"pid", 0, 0, 0, "a", "b", "c"⟩⟩)).2
      = [SdkCall.claimDeposit ⟨"tx", 4294967295, none⟩])
    ∧ ((claim_deposit ⟨some ⟨0⟩⟩ "tx" (-1) 0
        (fun _ => Except.ok ⟨⟨"pid", 0, 0, 0, "a", "b", "c"⟩⟩)).1
      = [("success", Variant.bool true), ("payment_id", Variant.str "pid")]) := by
  have h := claim_deposit_vout_truncation ⟨0⟩ "tx" (-1) 0
    ⟨⟨"pid", 0, 0, 0, "a", "b", "c"⟩⟩ (Or.inl (by decide))
  exact ⟨h.1.trans (by decide), h.2⟩
